import Mathlib

/-!
# Verification of the yellowpages-scraper schema-discovery and CSV pipeline

Shallow embedding of the repository's core data pipeline:

* `src/csvUtils.js`   — `convertToCSV` (dynamic-header CSV serializer);
* `src/main.js`       — the global-field merge step of `scrapeYellowpages`
  (lines 115–125, `globalAvailableFields`);
* `src/dataExtractor.js` — `analyzeAvailableFields` (field detection) and
  `extractBusinessData` (per-field extraction).

JavaScript values flowing through the pipeline (strings, numbers, booleans,
`null`) are modelled by the `JsValue` sum type; JS objects used as records
are modelled as insertion-ordered association lists, which matches the JS
own-property iteration order for the non-integer string keys this program
uses.  DOM pages are modelled by the `Dom` tree: an element carries its
`id`, `className`, `innerText`, `innerHTML`, its attributes, and finite
tables giving the result of `querySelector` / `querySelectorAll` for each
selector string the source code queries.
-/

namespace YPScraper

/-! ## Kernel-reducible string helpers

The JS string methods the source uses (`replace`, `trim`, `split`,
`includes`, `endsWith`, …) are modelled by structurally-recursive
functions on `List Char`, so that concrete runs evaluate inside the
kernel. -/

/-- Global single-character replacement: models `s.replace(/c/g, r)`. -/
def chReplaceAll (c : Char) (r : List Char) : List Char → List Char
  | [] => []
  | x :: xs => (if x = c then r else [x]) ++ chReplaceAll c r xs

/-- `s.replace(/c/g, r)` on strings. -/
def jsReplaceAllChar (s : String) (c : Char) (r : String) : String :=
  String.mk (chReplaceAll c r.data s.data)

/-- First-occurrence substring replacement: models `s.replace(pat, rep)`
with a plain-string pattern (JS replaces only the first occurrence). -/
def chReplaceFirst (pat rep : List Char) : List Char → List Char
  | [] => []
  | x :: xs =>
    if pat.isPrefixOf (x :: xs) then rep ++ (x :: xs).drop pat.length
    else x :: chReplaceFirst pat rep xs

/-- `s.replace(pat, rep)` (string pattern, first occurrence) on strings. -/
def jsReplaceFirst (s pat rep : String) : String :=
  String.mk (chReplaceFirst pat.data rep.data s.data)

/-- Substring test: models `s.includes(pat)` for non-empty `pat`. -/
def chContainsSub (pat : List Char) : List Char → Bool
  | [] => pat.isEmpty
  | x :: xs => pat.isPrefixOf (x :: xs) || chContainsSub pat xs

/-- `s.includes(pat)` on strings. -/
def jsIncludes (s pat : String) : Bool := chContainsSub pat.data s.data

/-- `s.trim()`: strip leading and trailing whitespace. -/
def jsTrim (s : String) : String :=
  String.mk (((s.data.dropWhile Char.isWhitespace).reverse.dropWhile Char.isWhitespace).reverse)

/-- Split on a single character: models `s.split(c)` (consecutive
separators yield empty pieces, as in JS). -/
def chSplit (c : Char) : List Char → List (List Char)
  | [] => [[]]
  | x :: xs =>
    let r := chSplit c xs
    if x = c then [] :: r
    else
      match r with
      | [] => [[x]]
      | y :: ys => (x :: y) :: ys

/-- Join a list of character lists with a separator (models
`Array.prototype.join`). -/
def chJoin (sep : List Char) : List (List Char) → List Char
  | [] => []
  | [x] => x
  | x :: xs => x ++ sep ++ chJoin sep xs

/-- `parts.join(sep)` on strings. -/
def jsJoin (sep : String) (parts : List String) : String :=
  String.mk (chJoin sep.data (parts.map String.data))

/-- Case-insensitive trailing-verb test helper: does `s` end with `pat`,
comparing lower-cased characters (models the `/…$/i` regexes)? -/
def chEndsWithCI (pat cs : List Char) : Bool :=
  (pat.map Char.toLower).reverse.isPrefixOf ((cs.map Char.toLower).reverse)

/-- `s.endsWith(pat)`. -/
def jsEndsWith (s pat : String) : Bool :=
  pat.data.reverse.isPrefixOf s.data.reverse

/-- A JavaScript value as used by the scraper: string, number (all numbers
in this code are array lengths, hence `Nat`), boolean, or `null`. -/
inductive JsValue : Type where
  | str  : String → JsValue
  | num  : Nat → JsValue
  | bool : Bool → JsValue
  | null : JsValue
deriving DecidableEq, Repr

/-- JavaScript truthiness of a `JsValue` (`''`, `0`, `false`, `null` are
falsy). -/
def JsValue.truthy : JsValue → Bool
  | .str s  => s ≠ ""
  | .num n  => n ≠ 0
  | .bool b => b
  | .null   => false

/-- JavaScript `String(value)` conversion. -/
def JsValue.render : JsValue → String
  | .str s  => s
  | .num n  => Nat.repr n
  | .bool b => if b then "true" else "false"
  | .null   => "null"

/-- A record (one extracted business): a JS object modelled as an
insertion-ordered association list from field identifiers to values. -/
abbrev JsRecord := List (String × JsValue)

/-- The keys of a record, in insertion order (`Object.keys`). -/
def recKeys (r : JsRecord) : List String := r.map Prod.fst

/-- Property read `r[k]`: the value stored at `k`, if any. -/
def recGet (r : JsRecord) (k : String) : Option JsValue := List.lookup k r

/-- Property write `r[k] = v`: overwrite in place if the key exists
(keeping its position), otherwise append — JS object assignment order. -/
def recSet (r : JsRecord) (k : String) (v : JsValue) : JsRecord :=
  if r.any (fun p => p.1 == k) then
    r.map (fun p => if p.1 == k then (k, v) else p)
  else
    r ++ [(k, v)]

/-! ## `src/csvUtils.js` — `convertToCSV` -/

/-- The JS idiom `x || ''` applied to a property read: a missing or falsy
value becomes the empty string, a truthy value is kept. -/
def jsOrEmpty : Option JsValue → JsValue
  | none => .str ""
  | some v => if v.truthy then v else .str ""

/-- `allKeys`: the union of all records' keys, first-seen order
(`convertToCSV` collects them into a `Set` by iterating the records). -/
def allKeys (data : List JsRecord) : List String :=
  data.foldl (fun acc item =>
    (recKeys item).foldl (fun acc2 k => if acc2.contains k then acc2 else acc2 ++ [k]) acc) []

/-- One CSV cell: `"${String(value).replace(/"/g, '""')}"` — unconditional
quote-wrapping with internal double quotes doubled. -/
def escapeCell (s : String) : String :=
  "\"" ++ jsReplaceAllChar s '\"' "\"\"" ++ "\""

/-- `normalizedItem` of `convertToCSV`: for each header,
`item[header] || ''` (backfill of missing columns with the empty string). -/
def normalizeItem (headers : List String) (item : JsRecord) : JsRecord :=
  headers.map (fun h => (h, jsOrEmpty (recGet item h)))

/-- One data row of `convertToCSV`, as a list of cells:
`headers.map(header => { const value = item[header] || ''; return quoted })`
applied to a normalized item. -/
def csvRow (headers : List String) (item : JsRecord) : List String :=
  headers.map (fun h => escapeCell (jsOrEmpty (recGet item h)).render)

/-- The rows of `convertToCSV`'s output, each as a list of cells: the
header row (the raw header names — `headers.join(',')` quotes nothing)
followed by one row per record. -/
def convertToCSVRows (data : List JsRecord) : List (List String) :=
  let headers := allKeys data
  headers :: (data.map (normalizeItem headers)).map (csvRow headers)

/-- `convertToCSV(data)`: empty input yields the empty string, otherwise
the rows are comma-joined and newline-joined. -/
def convertToCSV (data : List JsRecord) : String :=
  if data.length = 0 then ""
  else jsJoin "\n" ((convertToCSVRows data).map (jsJoin ","))

/-! ## DOM model

A rendered detail page is modelled by a `Dom` tree.  An element records
its `id`, `className`, `innerText`, `innerHTML`, its attributes
(`getAttribute` returns `null` for an absent attribute, modelled by
`Option`), and finite tables giving the element answered by
`querySelector` and the element list answered by `querySelectorAll` for
each selector string the source code uses (a selector absent from the
table matches nothing).  `inTa` models `closest('#ta-reviews-container')`
being non-null for a review element. -/

inductive Dom : Type where
  | mk (eid className innerText innerHTML : String)
       (attrs : List (String × String))
       (single : List (String × Dom))
       (multi : List (String × List Dom))
       (inTa : Bool)

/-- `element.id`. -/
def Dom.eid : Dom → String
  | .mk i _ _ _ _ _ _ _ => i

/-- `element.className`. -/
def Dom.cls : Dom → String
  | .mk _ c _ _ _ _ _ _ => c

/-- `element.innerText`. -/
def Dom.text : Dom → String
  | .mk _ _ t _ _ _ _ _ => t

/-- `element.innerHTML`. -/
def Dom.html : Dom → String
  | .mk _ _ _ h _ _ _ _ => h

/-- `element.getAttribute(a)` (`none` models `null`). -/
def Dom.attr : Dom → String → Option String
  | .mk _ _ _ _ as _ _ _, a => List.lookup a as

/-- `element.querySelector(sel)` (`none` models `null`). -/
def Dom.qsel : Dom → String → Option Dom
  | .mk _ _ _ _ _ s _ _, sel => List.lookup sel s

/-- `element.querySelectorAll(sel)` (an unlisted selector matches no
elements). -/
def Dom.qselAll : Dom → String → List Dom
  | .mk _ _ _ _ _ _ m _, sel => (List.lookup sel m).getD []

/-- `element.closest('#ta-reviews-container') !== null`. -/
def Dom.inTa : Dom → Bool
  | .mk _ _ _ _ _ _ _ b => b

/-- An element with no id, class, text, attributes or children. -/
def Dom.empty : Dom := .mk "" "" "" "" [] [] [] false

/-! ## Shared extraction helpers of `src/dataExtractor.js` -/

/-- `safeText`: `element?.innerText?.trim() || null`. -/
def safeText : Option Dom → Option String
  | none => none
  | some el => let t := jsTrim el.text; if t = "" then none else some t

/-- `safeAttr`: `element?.getAttribute(attr) || null`. -/
def safeAttr (e : Option Dom) (a : String) : Option String :=
  match e with
  | none => none
  | some el =>
    match el.attr a with
    | none => none
    | some v => if v = "" then none else some v

/-- Store a nullable string: `null` becomes `JsValue.null`. -/
def vOptStr : Option String → JsValue
  | some s => .str s
  | none => .null

/-- JS `a || b` on nullable strings (the empty string is falsy). -/
def jsOrS (a b : Option String) : Option String :=
  match a with
  | some s => if s = "" then b else some s
  | none => b

/-- Phone cleanup of `extractBusinessData`:
`phoneText.replace(/Call\s*$/i, '').trim()` followed by
`phoneText.replace(/\s*(Call|Text|SMS|Message)\s*$/i, '').trim()`.
A trailing action verb (case-insensitive, with surrounding trailing
whitespace) is stripped; the explicit `.trim()` calls absorb the
whitespace the regexes would consume. -/
def cleanPhone (s : String) : String :=
  let tw1 := String.mk ((s.data.reverse.dropWhile Char.isWhitespace).reverse)
  let s1 := jsTrim (if chEndsWithCI "call".data tw1.data
                    then String.mk (tw1.data.take (tw1.data.length - 4)) else s)
  let tw2 := String.mk ((s1.data.reverse.dropWhile Char.isWhitespace).reverse)
  let s2 :=
    if chEndsWithCI "call".data tw2.data then String.mk (tw2.data.take (tw2.data.length - 4))
    else if chEndsWithCI "text".data tw2.data then String.mk (tw2.data.take (tw2.data.length - 4))
    else if chEndsWithCI "sms".data tw2.data then String.mk (tw2.data.take (tw2.data.length - 3))
    else if chEndsWithCI "message".data tw2.data then String.mk (tw2.data.take (tw2.data.length - 7))
    else s1
  jsTrim s2

/-- A word character for the `\w` regex class. -/
def isWordChar (c : Char) : Bool := c.isAlphanum || c = '_'

/-- Scanner for `/result-rating\s+(\w+)/` applied to a `className`:
the first occurrence of `result-rating` followed by whitespace yields the
following word (e.g. `four_half`). -/
def scanResultRating : List Char → Option String
  | [] => none
  | c :: rest =>
    if "result-rating".data.isPrefixOf (c :: rest) then
      let after := (c :: rest).drop "result-rating".data.length
      let ws := after.takeWhile Char.isWhitespace
      let cap := (after.dropWhile Char.isWhitespace).takeWhile isWordChar
      if ws.isEmpty || cap.isEmpty then scanResultRating rest
      else some (String.mk cap)
    else scanResultRating rest

/-- Scanner for `/ta-(\d-\d)/` applied to a `className` (numeric-dash
rating form, e.g. `ta-4-5` captures `4-5`). -/
def scanTaDD : List Char → Option String
  | [] => none
  | c :: rest =>
    match c :: rest with
    | 't' :: 'a' :: '-' :: d1 :: '-' :: d2 :: _ =>
      if d1.isDigit && d2.isDigit then some (String.mk [d1, '-', d2]) else scanTaDD rest
    | _ => scanTaDD rest

/-- Scanner for `/ta-(\d)/` applied to a review rating `className`. -/
def scanTaD : List Char → Option String
  | [] => none
  | c :: rest =>
    match c :: rest with
    | 't' :: 'a' :: '-' :: d :: _ =>
      if d.isDigit then some (String.singleton d) else scanTaD rest
    | _ => scanTaD rest

/-! ## JSON model

`JSON.parse` is applied by the source only to the `data-media` attribute,
which on this site holds a flat JSON object with string values.  It is
modelled by a parser for exactly that shape; any other input is a parse
error (the thrown `SyntaxError`).  `JSON.stringify` is applied only to
flat string-valued objects (`socialLinks`, `hoursData`). -/

/-- Parse a JSON string literal starting after the opening quote;
returns the content and the remainder after the closing quote. -/
def parseJStringAux : List Char → List Char → Option (String × List Char)
  | [], _ => none
  | '\"' :: rest, acc => some (String.mk acc.reverse, rest)
  | '\\' :: c :: rest, acc => parseJStringAux rest (c :: acc)
  | c :: rest, acc => parseJStringAux rest (c :: acc)

/-- Parse a JSON string literal (expects a leading quote). -/
def parseJString : List Char → Option (String × List Char)
  | '\"' :: rest => parseJStringAux rest []
  | _ => none

/-- Skip whitespace. -/
def skipWs (cs : List Char) : List Char := cs.dropWhile Char.isWhitespace

/-- Parse the `"key":"value"` pairs of a flat JSON object (fuelled). -/
def parseFlatPairs : Nat → List Char → Except String (List (String × String))
  | 0, _ => .error "SyntaxError"
  | fuel + 1, cs =>
    match parseJString (skipWs cs) with
    | none => .error "SyntaxError"
    | some (k, rest1) =>
      match skipWs rest1 with
      | ':' :: rest2 =>
        match parseJString (skipWs rest2) with
        | none => .error "SyntaxError"
        | some (v, rest3) =>
          match skipWs rest3 with
          | ',' :: rest4 =>
            match parseFlatPairs fuel rest4 with
            | .error e => .error e
            | .ok more => .ok ((k, v) :: more)
          | '\x7d' :: rest5 =>
            if (skipWs rest5).isEmpty then .ok [(k, v)] else .error "SyntaxError"
          | _ => .error "SyntaxError"
      | _ => .error "SyntaxError"

/-- `JSON.parse` for a flat string-valued object; anything else throws. -/
def parseFlatJson (s : String) : Except String (List (String × String)) :=
  match skipWs s.data with
  | '\x7b' :: rest =>
    match skipWs rest with
    | '\x7d' :: rest2 =>
      if (skipWs rest2).isEmpty then .ok [] else .error "SyntaxError"
    | cs => parseFlatPairs (cs.length + 1) cs
  | _ => .error "SyntaxError"

/-- Property read on a parsed JSON object (duplicate keys: last wins, as
in `JSON.parse`). -/
def jGet (obj : List (String × String)) (k : String) : Option String :=
  List.lookup k obj.reverse

/-- JS truthiness of a nullable string. -/
def jTruthy : Option String → Bool
  | some s => s ≠ ""
  | none => false

/-- String-valued JS object assignment (`obj[k] = v`). -/
def sSet (obj : List (String × String)) (k : String) (v : String) : List (String × String) :=
  if obj.any (fun p => p.1 == k) then
    obj.map (fun p => if p.1 == k then (k, v) else p)
  else
    obj ++ [(k, v)]

/-- `JSON.stringify` escaping of quote and backslash. -/
def jsonEscape (s : String) : String :=
  String.mk (s.data.foldr
    (fun ch acc =>
      if ch = '\\' then '\\' :: '\\' :: acc
      else if ch = '\"' then '\\' :: '\"' :: acc
      else ch :: acc) [])

/-- `JSON.stringify` of a flat string-valued object. -/
def jsonStringifyFlat (obj : List (String × String)) : String :=
  String.singleton '\x7b'
    ++ jsJoin "," (obj.map (fun kv => "\"" ++ jsonEscape kv.1 ++ "\":\"" ++ jsonEscape kv.2 ++ "\""))
    ++ String.singleton '\x7d'

/-! ## `src/dataExtractor.js` — `analyzeAvailableFields` -/

/-- A presence map: the field names set to `true` on this page, in the
order they were set (all values are `true`, so only the ordered key list
matters). -/
abbrev PresenceMap := List String

/-- Setting `availableFields[fieldName] = true`: a key already present
keeps its position, a new key is appended. -/
def addField (acc : PresenceMap) (f : String) : PresenceMap :=
  if acc.contains f then acc else acc ++ [f]

/-- The primary-container fallback chain as written inside
`analyzeAvailableFields` (lines 5–9):
`main.container.search-monitor || main || .business-info ||
.listing-details || .result-details`. -/
def resolveContainerDetect (page : Dom) : Option Dom :=
  ((((page.qsel "main.container.search-monitor").orElse
      fun _ => page.qsel "main").orElse
      fun _ => page.qsel ".business-info").orElse
      fun _ => page.qsel ".listing-details").orElse
      fun _ => page.qsel ".result-details"

/-- The primary-container fallback chain as written inside
`extractBusinessData` (lines 223–227) — the source duplicates the same
five-selector chain. -/
def resolveContainerExtract (page : Dom) : Option Dom :=
  ((((page.qsel "main.container.search-monitor").orElse
      fun _ => page.qsel "main").orElse
      fun _ => page.qsel ".business-info").orElse
      fun _ => page.qsel ".listing-details").orElse
      fun _ => page.qsel ".result-details"

/-- The ordered `checkField(selector, fieldName)` calls of
`analyzeAvailableFields`, in source order. -/
def detectionRules : List (String × String) := [
  ("h1", "businessName"),
  (".business-name", "businessNameAlt"),
  (".business-title", "businessTitle"),
  (".company-name", "companyName"),
  (".phone, .phones", "phone"),
  (".address, .adr", "address"),
  ("a[href*=\"http\"]:not([href*=\"yellowpages.com\"])", "website"),
  (".contact-info", "contactInfo"),
  (".phone-number", "phoneNumber"),
  (".business-phone", "businessPhone"),
  (".categories a, .category a", "categories"),
  (".business-categories", "businessCategories"),
  (".service-categories", "serviceCategories"),
  (".result-rating", "ypRating"),
  (".rating-count", "ypRatingCount"),
  (".ta-rating", "taRating"),
  (".ta-count", "taRatingCount"),
  (".google-rating", "googleRating"),
  (".facebook-rating", "facebookRating"),
  (".yelp-rating", "yelpRating"),
  (".years-in-business", "yearsInBusiness"),
  (".price-range", "priceRange"),
  (".hours, .business-hours", "hours"),
  (".established", "established"),
  (".founded", "founded"),
  (".in-business-since", "inBusinessSince"),
  (".services li, .amenities li", "services"),
  (".payment-methods li, .payment li", "paymentMethods"),
  (".features li, .highlights li", "features"),
  (".specialties", "specialties"),
  (".services-offered", "servicesOffered"),
  (".amenities", "amenities"),
  (".facilities", "facilities"),
  (".description, .about", "description"),
  (".business-description", "businessDescription"),
  (".company-description", "companyDescription"),
  (".about-us", "aboutUs"),
  ("a[href*=\"facebook\"], a[href*=\"twitter\"], a[href*=\"instagram\"], a[href*=\"linkedin\"]", "socialMedia"),
  (".social-links", "socialLinks"),
  (".social-media", "socialMediaLinks"),
  ("a[href*=\"directions\"]", "directionsLink"),
  ("a[href*=\"reviews\"]", "reviewsLink"),
  ("a[href*=\"website\"]", "websiteLink"),
  ("a[href*=\"menu\"]", "menuLink"),
  ("a[href*=\"order\"]", "orderOnlineLink"),
  ("a[href*=\"quote\"]", "quoteLink"),
  ("a[href*=\"contact\"]", "contactLink"),
  ("a[href*=\"appointment\"]", "appointmentLink"),
  (".claimed-status", "claimed"),
  (".verified-badge", "verified"),
  (".business-status", "businessStatus"),
  (".listing-status", "listingStatus"),
  ("a[href^=\"mailto:\"]", "email"),
  (".fax", "fax"),
  (".email", "emailAddress"),
  (".contact-email", "contactEmail"),
  (".cuisine", "cuisine"),
  (".delivery", "delivery"),
  (".takeout", "takeout"),
  (".dine-in", "dineIn"),
  (".insurance", "acceptsInsurance"),
  (".certifications", "certifications"),
  (".warranty", "warranty"),
  (".practice-areas", "practiceAreas"),
  (".consultation", "consultation"),
  (".licensed", "licensed"),
  (".bonded", "bonded"),
  (".insured", "insured"),
  (".accredited", "accredited"),
  (".memberships", "memberships"),
  (".associations", "associations"),
  (".review, .testimonial, #reviews article, #ta-reviews-container article", "reviews"),
  (".customer-reviews", "customerReviews"),
  (".review-section", "reviewSection"),
  (".reviews-container", "reviewsContainer"),
  (".review-item", "reviewItems"),
  (".review-author", "reviewAuthors"),
  (".review-date", "reviewDates"),
  (".review-rating", "reviewRatings"),
  (".review-text", "reviewTexts"),
  (".review-title", "reviewTitles"),
  (".review-helpful", "reviewHelpful"),
  (".review-response", "reviewResponses"),
  ("#reviews", "reviewsSection"),
  ("#ta-reviews-container", "tripAdvisorReviews"),
  (".ta-tab", "tripAdvisorTab"),
  (".media-thumbnail.collage-pic, .photos img, .gallery img, .business-photos img, .image-gallery img", "photos"),
  (".business-photos", "businessPhotos"),
  (".image-gallery", "imageGallery"),
  (".photo-gallery", "photoGallery"),
  (".carousel", "photoCarousel"),
  (".collage-item", "photoCollage"),
  (".media-thumbnail", "mediaThumbnails"),
  (".hours .day, .business-hours .day", "detailedHours"),
  (".operating-hours", "operatingHours"),
  (".business-hours", "businessHours"),
  (".hours-of-operation", "hoursOfOperation"),
  (".map", "latitude"),
  (".map", "longitude"),
  (".location", "location"),
  (".coordinates", "coordinates"),
  (".neighborhood", "neighborhood"),
  (".area-served", "areaServed"),
  (".service-area", "serviceArea"),
  ("[data-ypid]", "businessId"),
  ("[data-listing-id]", "listingId"),
  ("[data-business-id]", "dataBusinessId"),
  ("[data-company-id]", "dataCompanyId"),
  (".employees", "employees"),
  (".company-size", "companySize"),
  (".annual-revenue", "annualRevenue"),
  (".languages", "languages"),
  (".languages-spoken", "languagesSpoken"),
  (".accessibility", "accessibility"),
  (".wheelchair-accessible", "wheelchairAccessible"),
  (".parking", "parking"),
  (".free-parking", "freeParking"),
  (".wifi", "wifi"),
  (".free-wifi", "freeWifi"),
  (".payment-options", "paymentOptions"),
  (".credit-cards", "creditCards"),
  (".cash-only", "cashOnly"),
  (".pricing", "pricing"),
  (".rates", "rates"),
  (".price-list", "priceList"),
  (".service-prices", "servicePrices"),
  (".emergency", "emergency"),
  ("[class*=\"24-hour\"], [class*=\"24hr\"], .twenty-four-hour", "twentyFourHour"),
  (".after-hours", "afterHours"),
  (".emergency-service", "emergencyService"),
  (".awards", "awards"),
  (".certifications-list", "certificationsList"),
  (".accreditations", "accreditations"),
  (".recognitions", "recognitions"),
  (".badges", "badges"),
  (".call-button", "callButton"),
  (".text-button", "textButton"),
  (".email-button", "emailButton"),
  (".chat-button", "chatButton"),
  (".online-booking", "onlineBooking"),
  (".appointment-scheduler", "appointmentScheduler")]

/-- `analyzeAvailableFields(page)`: resolve the primary container (or
return `null`), run every `checkField` rule, then the generic fallback
that synthesizes a `<id-or-class>Section` field for every `section`,
`div` or `article` element with an id or class. -/
def analyzeAvailableFields (page : Dom) : Option PresenceMap :=
  match resolveContainerDetect page with
  | none => none
  | some c =>
    let base := detectionRules.foldl
      (fun acc r => if (c.qsel r.1).isSome then addField acc r.2 else acc) []
    some ((c.qselAll "section, div, article").foldl
      (fun acc node =>
        if node.eid ≠ "" then addField acc (node.eid ++ "Section")
        else if node.cls ≠ "" then
          addField acc (jsJoin "_" ((chSplit ' ' node.cls.data).map String.mk) ++ "Section")
        else acc) base)

/-! ## `src/dataExtractor.js` — `extractBusinessData` -/

/-- `fields.f` truthiness: the presence-map values are always `true`, so
a field is on iff its name is a key. -/
def fieldOn (fields : PresenceMap) (f : String) : Bool := fields.contains f

/-- The per-review data collected by the comprehensive review extraction
(lines 522–540), field for field. -/
structure ReviewData where
  author : Option String
  rating : Option String
  date : Option String
  text : Option String
  title : Option String
  helpful : Option String
  response : Option String
  verified : Bool
  platform : Option String
  location : Option String
  avatar : Option String

/-- One review element mapped to its `ReviewData` (lines 524–538). -/
def reviewDataOf (r : Dom) : ReviewData :=
  { author := safeText (r.qsel ".author, .review-author, .customer-name, .name")
    rating := jsOrS
      (match r.qsel ".rating, .review-rating, .stars, .ta-rating" with
       | some el => scanTaD el.cls.data
       | none => none)
      (safeText (r.qsel ".rating, .review-rating, .stars"))
    date := safeText (r.qsel ".date, .review-date, .post-date, .date-posted")
    text := safeText (r.qsel ".text, .content, .review-text, .review-content, .review-response p")
    title := safeText (r.qsel ".title, .review-title, .review-heading, .review-response header")
    helpful := safeText (r.qsel ".helpful, .review-helpful, .thumbs-up")
    response := safeText (r.qsel ".response, .review-response, .business-response")
    verified := (r.qsel ".verified-badge, .verified-review").isSome
    platform := jsOrS (safeText (r.qsel ".platform, .source"))
      (if r.inTa then some "TripAdvisor" else none)
    location := safeText (r.qsel ".location")
    avatar := safeAttr (r.qsel "img") "src" }

/-- The eleven `data[review<N>_…] = …` assignments for one review at
0-based index `idx` (lines 545–555). -/
def assignReviewCols (d : JsRecord) (idx : Nat) (r : ReviewData) : JsRecord :=
  let n := Nat.repr (idx + 1)
  let d := recSet d ("review" ++ n ++ "_author") (vOptStr r.author)
  let d := recSet d ("review" ++ n ++ "_rating") (vOptStr r.rating)
  let d := recSet d ("review" ++ n ++ "_date") (vOptStr r.date)
  let d := recSet d ("review" ++ n ++ "_text") (vOptStr r.text)
  let d := recSet d ("review" ++ n ++ "_title") (vOptStr r.title)
  let d := recSet d ("review" ++ n ++ "_helpful") (vOptStr r.helpful)
  let d := recSet d ("review" ++ n ++ "_response") (vOptStr r.response)
  let d := recSet d ("review" ++ n ++ "_verified") (.bool r.verified)
  let d := recSet d ("review" ++ n ++ "_platform") (vOptStr r.platform)
  let d := recSet d ("review" ++ n ++ "_location") (vOptStr r.location)
  recSet d ("review" ++ n ++ "_avatar") (vOptStr r.avatar)

/-- The `src`-attribute fallback of the main photo extraction
(lines 610–618): a `src` without the thumbnail suffix has the suffix
"stripped" (a no-op replace) and is pushed; with the suffix it is pushed
unchanged. -/
def photoSrcFallback (item : Dom) : Option String :=
  match item.attr "src" with
  | some src =>
    if src ≠ "" then
      if ¬ jsIncludes src "_228x168_crop.jpg" then
        some (jsReplaceFirst src "_228x168_crop.jpg" "")
      else some src
    else none
  | none => none

/-- The `data-url` fallback of the main photo extraction
(lines 603–607), falling through to the `src` fallback. -/
def photoDataUrlFallback (item : Dom) : Option String :=
  match item.attr "data-url" with
  | some du => if du ≠ "" then some du else photoSrcFallback item
  | none => photoSrcFallback item

/-- The body of the `try` block processing one gallery item in the main
photo extraction (lines 588–618): `data-media` JSON first (a parse
failure is a thrown error), then `data-url`, then `src`. -/
def photoUrlOfItem (item : Dom) : Except String (Option String) :=
  match item.attr "data-media" with
  | some dm =>
    if dm ≠ "" then
      match parseFlatJson dm with
      | .error e => .error e
      | .ok obj =>
        if jTruthy (jGet obj "fullImagePath") then .ok (jGet obj "fullImagePath")
        else if jTruthy (jGet obj "src") then .ok (jGet obj "src")
        else .ok (photoDataUrlFallback item)
    else .ok (photoDataUrlFallback item)
  | none => .ok (photoDataUrlFallback item)

/-- The `forEach` over gallery items with its per-item `try`/`catch`
(lines 587–623): a thrown parse error is caught and the item skipped;
extraction of the remaining items and fields continues. -/
def collectPhotos (items : List Dom) : List String :=
  items.foldl (fun acc item =>
    match photoUrlOfItem item with
    | .error _ => acc
    | .ok none => acc
    | .ok (some u) => acc ++ [u]) []

/-- The per-item `try` body of the secondary photo groups
(`businessPhotos`, `imageGallery`, `photoGallery`, `photoCollage`,
`photoCarousel`): `data-media` JSON if the attribute is truthy,
otherwise `data-url`; no `src` fallback (lines 640–657 etc.). -/
def subPhotoUrlOfItem (item : Dom) : Except String (Option String) :=
  match item.attr "data-media" with
  | some dm =>
    if dm ≠ "" then
      match parseFlatJson dm with
      | .error e => .error e
      | .ok obj =>
        if jTruthy (jGet obj "fullImagePath") then .ok (jGet obj "fullImagePath")
        else if jTruthy (jGet obj "src") then .ok (jGet obj "src")
        else .ok none
    else .ok (match item.attr "data-url" with
              | some du => if du ≠ "" then some du else none
              | none => none)
  | none => .ok (match item.attr "data-url" with
                 | some du => if du ≠ "" then some du else none
                 | none => none)

/-- The catch-and-skip `forEach` of the secondary photo groups. -/
def collectSubPhotos (items : List Dom) : List String :=
  items.foldl (fun acc item =>
    match subPhotoUrlOfItem item with
    | .error _ => acc
    | .ok none => acc
    | .ok (some u) => acc ++ [u]) []

/-- `urls.forEach((photo, index) => { if (index < cap)
data[pfx + (index+1)] = photo })`: materialize capped, 1-based group
columns. -/
def setIndexedCols (pfx : String) (cap : Nat) (urls : List String) (d : JsRecord) : JsRecord :=
  urls.enum.foldl (fun acc p =>
    if p.1 < cap then recSet acc (pfx ++ Nat.repr (p.1 + 1)) (.str p.2) else acc) d

/-- Phone-style field: `safeText(el)` then, when non-null, the
action-verb suffix cleanup; a cleaned-to-empty string is stored as the
empty string, not re-nulled (lines 249–257). -/
def phoneField (e : Option Dom) : JsValue :=
  match safeText e with
  | none => .null
  | some t => .str (cleanPhone t)

/-- `element?.innerText?.replace(/[()]/g, '').trim() || null` (the
rating-count fields). -/
def stripParensTrimOrNull (e : Option Dom) : Option String :=
  match e with
  | none => none
  | some el =>
    let t := jsTrim (String.mk (el.text.data.filter (fun ch => ch ≠ '(' && ch ≠ ')')))
    if t = "" then none else some t

/-- `extractBusinessData(page, availableFields)`: resolve the primary
container (or return `null`), then extract every field that is on in
`availableFields`, in source order.  A field whose selector misses on
this page is still assigned (as `null`) by the scalar and attribute
rules; only the group columns, latitude/longitude and the synthesized
`…Section` fields are left absent. -/
def extractBusinessData (page : Dom) (fields : PresenceMap) : Option JsRecord :=
  match resolveContainerExtract page with
  | none => none
  | some c =>
    let data : JsRecord := []
    let data := if fieldOn fields "businessName" then
      recSet data "businessName" (vOptStr (safeText (c.qsel "h1"))) else data
    let data := if fieldOn fields "businessNameAlt" then
      recSet data "businessNameAlt" (vOptStr (safeText (c.qsel ".business-name"))) else data
    let data := if fieldOn fields "businessTitle" then
      recSet data "businessTitle" (vOptStr (safeText (c.qsel ".business-title"))) else data
    let data := if fieldOn fields "companyName" then
      recSet data "companyName" (vOptStr (safeText (c.qsel ".company-name"))) else data
    let data := if fieldOn fields "phone" then
      recSet data "phone" (phoneField ((c.qsel ".phone").orElse fun _ => c.qsel ".phones")) else data
    let data := if fieldOn fields "phoneNumber" then
      recSet data "phoneNumber" (phoneField (c.qsel ".phone-number")) else data
    let data := if fieldOn fields "businessPhone" then
      recSet data "businessPhone" (phoneField (c.qsel ".business-phone")) else data
    let data := if fieldOn fields "address" then
      recSet data "address" (vOptStr (safeText ((c.qsel ".address").orElse fun _ => c.qsel ".adr"))) else data
    let data := if fieldOn fields "website" then
      recSet data "website" (vOptStr (safeAttr (c.qsel "a[href*=\"http\"]:not([href*=\"yellowpages.com\"])") "href")) else data
    let data := if fieldOn fields "contactInfo" then
      recSet data "contactInfo" (vOptStr (safeText (c.qsel ".contact-info"))) else data
    let data := if fieldOn fields "categories" then
      recSet data "categories" (.str (jsJoin "; " ((c.qselAll ".categories a, .category a").map (fun a => jsTrim a.text)))) else data
    let data := if fieldOn fields "businessCategories" then
      recSet data "businessCategories" (vOptStr (safeText (c.qsel ".business-categories"))) else data
    let data := if fieldOn fields "serviceCategories" then
      recSet data "serviceCategories" (vOptStr (safeText (c.qsel ".service-categories"))) else data
    let data := if fieldOn fields "ypRating" then
      recSet data "ypRating" (vOptStr (match c.qsel ".result-rating" with
        | some el => scanResultRating el.cls.data
        | none => none)) else data
    let data := if fieldOn fields "ypRatingCount" then
      recSet data "ypRatingCount" (vOptStr (stripParensTrimOrNull (c.qsel ".rating-count"))) else data
    let data := if fieldOn fields "taRating" then
      recSet data "taRating" (vOptStr (match c.qsel ".ta-rating" with
        | some el => (scanTaDD el.cls.data).map (fun cap => jsReplaceFirst cap "-" ".")
        | none => none)) else data
    let data := if fieldOn fields "taRatingCount" then
      recSet data "taRatingCount" (vOptStr (stripParensTrimOrNull (c.qsel ".ta-count"))) else data
    let data := if fieldOn fields "googleRating" then
      recSet data "googleRating" (vOptStr (safeText (c.qsel ".google-rating"))) else data
    let data := if fieldOn fields "facebookRating" then
      recSet data "facebookRating" (vOptStr (safeText (c.qsel ".facebook-rating"))) else data
    let data := if fieldOn fields "yelpRating" then
      recSet data "yelpRating" (vOptStr (safeText (c.qsel ".yelp-rating"))) else data
    let data := if fieldOn fields "yearsInBusiness" then
      recSet data "yearsInBusiness" (vOptStr (safeText (c.qsel ".years-in-business .count strong"))) else data
    let data := if fieldOn fields "established" then
      recSet data "established" (vOptStr (safeText (c.qsel ".established"))) else data
    let data := if fieldOn fields "founded" then
      recSet data "founded" (vOptStr (safeText (c.qsel ".founded"))) else data
    let data := if fieldOn fields "inBusinessSince" then
      recSet data "inBusinessSince" (vOptStr (safeText (c.qsel ".in-business-since"))) else data
    let data := if fieldOn fields "priceRange" then
      recSet data "priceRange" (vOptStr (safeText (c.qsel ".price-range"))) else data
    let data := if fieldOn fields "hours" then
      recSet data "hours" (vOptStr (safeText ((c.qsel ".hours").orElse fun _ => c.qsel ".business-hours"))) else data
    let data := if fieldOn fields "operatingHours" then
      recSet data "operatingHours" (vOptStr (safeText (c.qsel ".operating-hours"))) else data
    let data := if fieldOn fields "hoursOfOperation" then
      recSet data "hoursOfOperation" (vOptStr (safeText (c.qsel ".hours-of-operation"))) else data
    let data := if fieldOn fields "services" then
      recSet data "services" (.str (jsJoin "; " ((c.qselAll ".services li, .amenities li").map (fun li => jsTrim li.text)))) else data
    let data := if fieldOn fields "servicesOffered" then
      recSet data "servicesOffered" (vOptStr (safeText (c.qsel ".services-offered"))) else data
    let data := if fieldOn fields "amenities" then
      recSet data "amenities" (vOptStr (safeText (c.qsel ".amenities"))) else data
    let data := if fieldOn fields "facilities" then
      recSet data "facilities" (vOptStr (safeText (c.qsel ".facilities"))) else data
    let data := if fieldOn fields "paymentMethods" then
      recSet data "paymentMethods" (.str (jsJoin "; " ((c.qselAll ".payment-methods li, .payment li").map (fun li => jsTrim li.text)))) else data
    let data := if fieldOn fields "paymentOptions" then
      recSet data "paymentOptions" (vOptStr (safeText (c.qsel ".payment-options"))) else data
    let data := if fieldOn fields "creditCards" then
      recSet data "creditCards" (vOptStr (safeText (c.qsel ".credit-cards"))) else data
    let data := if fieldOn fields "cashOnly" then
      recSet data "cashOnly" (.bool (c.qsel ".cash-only").isSome) else data
    let data := if fieldOn fields "features" then
      recSet data "features" (.str (jsJoin "; " ((c.qselAll ".features li, .highlights li").map (fun li => jsTrim li.text)))) else data
    let data := if fieldOn fields "description" then
      recSet data "description" (vOptStr (jsOrS (safeText (c.qsel ".description")) (safeText (c.qsel ".about")))) else data
    let data := if fieldOn fields "businessDescription" then
      recSet data "businessDescription" (vOptStr (safeText (c.qsel ".business-description"))) else data
    let data := if fieldOn fields "companyDescription" then
      recSet data "companyDescription" (vOptStr (safeText (c.qsel ".company-description"))) else data
    let data := if fieldOn fields "aboutUs" then
      recSet data "aboutUs" (vOptStr (safeText (c.qsel ".about-us"))) else data
    let data := if fieldOn fields "socialMedia" then
      recSet data "socialMedia" (.str (jsonStringifyFlat
        ((c.qselAll "a[href*=\"facebook\"], a[href*=\"twitter\"], a[href*=\"instagram\"], a[href*=\"linkedin\"]").foldl
          (fun sl link =>
            let href := (link.attr "href").getD ""
            let sl := if jsIncludes href "facebook" then sSet sl "facebook" href else sl
            let sl := if jsIncludes href "twitter" then sSet sl "twitter" href else sl
            let sl := if jsIncludes href "instagram" then sSet sl "instagram" href else sl
            if jsIncludes href "linkedin" then sSet sl "linkedin" href else sl) []))) else data
    let data := if fieldOn fields "socialLinks" then
      recSet data "socialLinks" (vOptStr (safeText (c.qsel ".social-links"))) else data
    let data := if fieldOn fields "socialMediaLinks" then
      recSet data "socialMediaLinks" (vOptStr (safeText (c.qsel ".social-media"))) else data
    let data := if fieldOn fields "directionsLink" then
      recSet data "directionsLink" (vOptStr (safeAttr (c.qsel "a[href*=\"directions\"]") "href")) else data
    let data := if fieldOn fields "reviewsLink" then
      recSet data "reviewsLink" (vOptStr (safeAttr (c.qsel "a[href*=\"reviews\"]") "href")) else data
    let data := if fieldOn fields "websiteLink" then
      recSet data "websiteLink" (vOptStr (safeAttr (c.qsel "a[href*=\"website\"]") "href")) else data
    let data := if fieldOn fields "menuLink" then
      recSet data "menuLink" (vOptStr (safeAttr (c.qsel "a[href*=\"menu\"]") "href")) else data
    let data := if fieldOn fields "orderOnlineLink" then
      recSet data "orderOnlineLink" (vOptStr (safeAttr (c.qsel "a[href*=\"order\"]") "href")) else data
    let data := if fieldOn fields "quoteLink" then
      recSet data "quoteLink" (vOptStr (safeAttr (c.qsel "a[href*=\"quote\"]") "href")) else data
    let data := if fieldOn fields "contactLink" then
      recSet data "contactLink" (vOptStr (safeAttr (c.qsel "a[href*=\"contact\"]") "href")) else data
    let data := if fieldOn fields "appointmentLink" then
      recSet data "appointmentLink" (vOptStr (safeAttr (c.qsel "a[href*=\"appointment\"]") "href")) else data
    let data := if fieldOn fields "claimed" then
      recSet data "claimed" (vOptStr (safeText (c.qsel ".claimed-status"))) else data
    let data := if fieldOn fields "verified" then
      recSet data "verified" (.bool (c.qsel ".verified-badge").isSome) else data
    let data := if fieldOn fields "businessStatus" then
      recSet data "businessStatus" (vOptStr (safeText (c.qsel ".business-status"))) else data
    let data := if fieldOn fields "listingStatus" then
      recSet data "listingStatus" (vOptStr (safeText (c.qsel ".listing-status"))) else data
    let data := if fieldOn fields "email" then
      recSet data "email" (match c.qsel "a[href^=\"mailto:\"]" with
        | some el =>
          match el.attr "href" with
          | some h =>
            let r := jsReplaceFirst h "mailto:" ""
            if r = "" then JsValue.null else .str r
          | none => JsValue.null
        | none => JsValue.null) else data
    let data := if fieldOn fields "emailAddress" then
      recSet data "emailAddress" (vOptStr (safeText (c.qsel ".email"))) else data
    let data := if fieldOn fields "contactEmail" then
      recSet data "contactEmail" (vOptStr (safeText (c.qsel ".contact-email"))) else data
    let data := if fieldOn fields "fax" then
      recSet data "fax" (vOptStr (safeText (c.qsel ".fax"))) else data
    let data := if fieldOn fields "cuisine" then
      recSet data "cuisine" (vOptStr (safeText (c.qsel ".cuisine"))) else data
    let data := if fieldOn fields "delivery" then
      recSet data "delivery" (.bool (c.qsel ".delivery").isSome) else data
    let data := if fieldOn fields "takeout" then
      recSet data "takeout" (.bool (c.qsel ".takeout").isSome) else data
    let data := if fieldOn fields "dineIn" then
      recSet data "dineIn" (.bool (c.qsel ".dine-in").isSome) else data
    let data := if fieldOn fields "acceptsInsurance" then
      recSet data "acceptsInsurance" (.bool (c.qsel ".insurance").isSome) else data
    let data := if fieldOn fields "specialties" then
      recSet data "specialties" (vOptStr (safeText (c.qsel ".specialties"))) else data
    let data := if fieldOn fields "certifications" then
      recSet data "certifications" (vOptStr (safeText (c.qsel ".certifications"))) else data
    let data := if fieldOn fields "certificationsList" then
      recSet data "certificationsList" (vOptStr (safeText (c.qsel ".certifications-list"))) else data
    let data := if fieldOn fields "accreditations" then
      recSet data "accreditations" (vOptStr (safeText (c.qsel ".accreditations"))) else data
    let data := if fieldOn fields "warranty" then
      recSet data "warranty" (vOptStr (safeText (c.qsel ".warranty"))) else data
    let data := if fieldOn fields "practiceAreas" then
      recSet data "practiceAreas" (vOptStr (safeText (c.qsel ".practice-areas"))) else data
    let data := if fieldOn fields "consultation" then
      recSet data "consultation" (vOptStr (safeText (c.qsel ".consultation"))) else data
    let data := if fieldOn fields "licensed" then
      recSet data "licensed" (.bool (c.qsel ".licensed").isSome) else data
    let data := if fieldOn fields "bonded" then
      recSet data "bonded" (.bool (c.qsel ".bonded").isSome) else data
    let data := if fieldOn fields "insured" then
      recSet data "insured" (.bool (c.qsel ".insured").isSome) else data
    let data := if fieldOn fields "accredited" then
      recSet data "accredited" (.bool (c.qsel ".accredited").isSome) else data
    let data := if fieldOn fields "memberships" then
      recSet data "memberships" (vOptStr (safeText (c.qsel ".memberships"))) else data
    let data := if fieldOn fields "associations" then
      recSet data "associations" (vOptStr (safeText (c.qsel ".associations"))) else data
    let data := if fieldOn fields "awards" then
      recSet data "awards" (vOptStr (safeText (c.qsel ".awards"))) else data
    let data := if fieldOn fields "recognitions" then
      recSet data "recognitions" (vOptStr (safeText (c.qsel ".recognitions"))) else data
    let data := if fieldOn fields "badges" then
      recSet data "badges" (vOptStr (safeText (c.qsel ".badges"))) else data
    let data := if fieldOn fields "reviews" then
      let reviews := (c.qselAll ".review, .testimonial, #reviews article, #ta-reviews-container article").map reviewDataOf
      let data := reviews.enum.foldl (fun d p =>
        if p.1 < 10 then assignReviewCols d p.1 p.2 else d) data
      recSet data "totalReviews" (.num reviews.length) else data
    let data := if fieldOn fields "customerReviews" then
      recSet data "customerReviews" (vOptStr (safeText (c.qsel ".customer-reviews"))) else data
    let data := if fieldOn fields "reviewSection" then
      recSet data "reviewSection" (vOptStr (safeText (c.qsel ".review-section"))) else data
    let data := if fieldOn fields "reviewsContainer" then
      recSet data "reviewsContainer" (vOptStr (safeText (c.qsel ".reviews-container"))) else data
    let data := if fieldOn fields "reviewsSection" then
      recSet data "reviewsSection" (vOptStr (safeText (c.qsel "#reviews"))) else data
    let data := if fieldOn fields "tripAdvisorReviews" then
      recSet data "tripAdvisorReviews" (vOptStr (safeText (c.qsel "#ta-reviews-container"))) else data
    let data := if fieldOn fields "tripAdvisorTab" then
      recSet data "tripAdvisorTab" (vOptStr (safeText (c.qsel ".ta-tab"))) else data
    let data := if fieldOn fields "photos" then
      let photos := collectPhotos (c.qselAll ".media-thumbnail.collage-pic, .gallery img, .photos img, .business-photos img, .image-gallery img")
      let data := setIndexedCols "photo" 20 photos data
      recSet data "totalPhotos" (.num photos.length) else data
    let data := if fieldOn fields "businessPhotos" then
      let ps := collectSubPhotos (c.qselAll ".business-photos .media-thumbnail.collage-pic, .business-photos img")
      let data := setIndexedCols "businessPhoto" 10 ps data
      recSet data "totalBusinessPhotos" (.num ps.length) else data
    let data := if fieldOn fields "imageGallery" then
      let ps := collectSubPhotos (c.qselAll ".image-gallery .media-thumbnail.collage-pic, .image-gallery img")
      let data := setIndexedCols "galleryImage" 10 ps data
      recSet data "totalGalleryImages" (.num ps.length) else data
    let data := if fieldOn fields "photoGallery" then
      let ps := collectSubPhotos (c.qselAll ".photo-gallery .media-thumbnail.collage-pic, .photo-gallery img")
      let data := setIndexedCols "galleryPhoto" 10 ps data
      recSet data "totalGalleryPhotos" (.num ps.length) else data
    let data := if fieldOn fields "detailedHours" then
      recSet data "detailedHours" (.str (jsonStringifyFlat
        ((c.qselAll ".hours .day, .business-hours .day, .operating-hours .day").foldl
          (fun hd day =>
            match safeText (day.qsel ".day-name, .day"), safeText (day.qsel ".day-hours, .hours") with
            | some n, some h => sSet hd n h
            | _, _ => hd) []))) else data
    let data := if fieldOn fields "latitude" && fieldOn fields "longitude" then
      match c.qsel ".map" with
      | some mapEl =>
        let data := recSet data "latitude" (vOptStr (safeAttr (some mapEl) "data-lat"))
        recSet data "longitude" (vOptStr (safeAttr (some mapEl) "data-lng"))
      | none => data
      else data
    let data := if fieldOn fields "location" then
      recSet data "location" (vOptStr (safeText (c.qsel ".location"))) else data
    let data := if fieldOn fields "coordinates" then
      recSet data "coordinates" (vOptStr (safeText (c.qsel ".coordinates"))) else data
    let data := if fieldOn fields "neighborhood" then
      recSet data "neighborhood" (vOptStr (safeText (c.qsel ".neighborhood"))) else data
    let data := if fieldOn fields "areaServed" then
      recSet data "areaServed" (vOptStr (safeText (c.qsel ".area-served"))) else data
    let data := if fieldOn fields "serviceArea" then
      recSet data "serviceArea" (vOptStr (safeText (c.qsel ".service-area"))) else data
    let data := if fieldOn fields "businessId" then
      recSet data "businessId" (vOptStr (safeAttr (c.qsel "[data-ypid]") "data-ypid")) else data
    let data := if fieldOn fields "listingId" then
      recSet data "listingId" (vOptStr (safeAttr (c.qsel "[data-listing-id]") "data-listing-id")) else data
    let data := if fieldOn fields "dataBusinessId" then
      recSet data "dataBusinessId" (vOptStr (safeAttr (c.qsel "[data-business-id]") "data-business-id")) else data
    let data := if fieldOn fields "dataCompanyId" then
      recSet data "dataCompanyId" (vOptStr (safeAttr (c.qsel "[data-company-id]") "data-company-id")) else data
    let data := if fieldOn fields "employees" then
      recSet data "employees" (vOptStr (safeText (c.qsel ".employees"))) else data
    let data := if fieldOn fields "companySize" then
      recSet data "companySize" (vOptStr (safeText (c.qsel ".company-size"))) else data
    let data := if fieldOn fields "annualRevenue" then
      recSet data "annualRevenue" (vOptStr (safeText (c.qsel ".annual-revenue"))) else data
    let data := if fieldOn fields "languages" then
      recSet data "languages" (vOptStr (safeText (c.qsel ".languages"))) else data
    let data := if fieldOn fields "languagesSpoken" then
      recSet data "languagesSpoken" (vOptStr (safeText (c.qsel ".languages-spoken"))) else data
    let data := if fieldOn fields "accessibility" then
      recSet data "accessibility" (vOptStr (safeText (c.qsel ".accessibility"))) else data
    let data := if fieldOn fields "wheelchairAccessible" then
      recSet data "wheelchairAccessible" (.bool (c.qsel ".wheelchair-accessible").isSome) else data
    let data := if fieldOn fields "parking" then
      recSet data "parking" (vOptStr (safeText (c.qsel ".parking"))) else data
    let data := if fieldOn fields "freeParking" then
      recSet data "freeParking" (.bool (c.qsel ".free-parking").isSome) else data
    let data := if fieldOn fields "wifi" then
      recSet data "wifi" (.bool (c.qsel ".wifi").isSome) else data
    let data := if fieldOn fields "freeWifi" then
      recSet data "freeWifi" (.bool (c.qsel ".free-wifi").isSome) else data
    let data := if fieldOn fields "pricing" then
      recSet data "pricing" (vOptStr (safeText (c.qsel ".pricing"))) else data
    let data := if fieldOn fields "rates" then
      recSet data "rates" (vOptStr (safeText (c.qsel ".rates"))) else data
    let data := if fieldOn fields "priceList" then
      recSet data "priceList" (vOptStr (safeText (c.qsel ".price-list"))) else data
    let data := if fieldOn fields "servicePrices" then
      recSet data "servicePrices" (vOptStr (safeText (c.qsel ".service-prices"))) else data
    let data := if fieldOn fields "emergency" then
      recSet data "emergency" (.bool (c.qsel ".emergency").isSome) else data
    let data := if fieldOn fields "twentyFourHour" then
      recSet data "twentyFourHour" (.bool (c.qsel "[class*=\"24-hour\"], [class*=\"24hr\"], .twenty-four-hour").isSome) else data
    let data := if fieldOn fields "afterHours" then
      recSet data "afterHours" (.bool (c.qsel ".after-hours").isSome) else data
    let data := if fieldOn fields "emergencyService" then
      recSet data "emergencyService" (.bool (c.qsel ".emergency-service").isSome) else data
    let data := if fieldOn fields "callButton" then
      recSet data "callButton" (vOptStr (safeAttr (c.qsel ".call-button") "href")) else data
    let data := if fieldOn fields "textButton" then
      recSet data "textButton" (vOptStr (safeAttr (c.qsel ".text-button") "href")) else data
    let data := if fieldOn fields "emailButton" then
      recSet data "emailButton" (vOptStr (safeAttr (c.qsel ".email-button") "href")) else data
    let data := if fieldOn fields "chatButton" then
      recSet data "chatButton" (vOptStr (safeAttr (c.qsel ".chat-button") "href")) else data
    let data := if fieldOn fields "onlineBooking" then
      recSet data "onlineBooking" (vOptStr (safeAttr (c.qsel ".online-booking") "href")) else data
    let data := if fieldOn fields "appointmentScheduler" then
      recSet data "appointmentScheduler" (vOptStr (safeAttr (c.qsel ".appointment-scheduler") "href")) else data
    let data := if fieldOn fields "photoCollage" then
      let ps := collectSubPhotos (c.qselAll ".collage-item .media-thumbnail.collage-pic, .collage-item img")
      let data := setIndexedCols "collagePhoto" 10 ps data
      recSet data "totalCollagePhotos" (.num ps.length) else data
    let data := if fieldOn fields "photoCarousel" then
      let ps := collectSubPhotos (c.qselAll ".carousel .media-thumbnail.collage-pic, .carousel img")
      let data := setIndexedCols "carouselPhoto" 10 ps data
      recSet data "totalCarouselPhotos" (.num ps.length) else data
    let data := fields.foldl (fun d field =>
      if jsEndsWith field "Section" then
        let selector := jsReplaceFirst field "Section" ""
        let node :=
          match c.qsel ("#" ++ selector) with
          | some n => some n
          | none =>
            match c.qsel ("." ++ jsReplaceAllChar selector '_' " ") with
            | some n => some n
            | none => c.qsel ("[id=\"" ++ selector ++ "\"]")
        match node with
        | some n => recSet d field (.str (if n.text ≠ "" then n.text else n.html))
        | none => d
      else d) data
    some data

/-! ## `src/main.js` — the global-schema merge of `scrapeYellowpages`

Lines 115–125: per detail page, `analyzeAvailableFields` yields
`pageFields`; if it is non-null, the new fields are computed and, when
there are any, the global schema becomes
`{ ...globalAvailableFields, ...pageFields }`.  Object spread preserves
the position of keys already present (values are all `true`) and appends
new keys in the page map's order; the field names are non-integer
strings, so JS own-property order is insertion order. -/

/-- One merge step: `newFields = Object.keys(pageFields).filter(f =>
!globalAvailableFields[f]); if (newFields.length > 0)
globalAvailableFields = { ...globalAvailableFields, ...pageFields }`. -/
def mergeGlobalFields (globalFields pageFields : PresenceMap) : PresenceMap :=
  if (pageFields.filter (fun f => ¬ globalFields.contains f)).length > 0 then
    pageFields.foldl (fun acc k => if acc.contains k then acc else acc ++ [k]) globalFields
  else globalFields

/-- The per-page guard `if (pageFields) { … }`: a `null` analysis result
leaves the global schema unchanged. -/
def processPresence (g : PresenceMap) (pm : Option PresenceMap) : PresenceMap :=
  match pm with
  | none => g
  | some p => mergeGlobalFields g p

/-! ## Supporting lemmas -/

theorem spread_append (p : List String) :
    ∀ acc : PresenceMap,
      ∃ t, p.foldl (fun acc k => if acc.contains k then acc else acc ++ [k]) acc = acc ++ t ∧
        ∀ k ∈ t, k ∉ acc := by
  induction p with
  | nil => intro acc; exact ⟨[], by simp, by simp⟩
  | cons a p ih =>
    intro acc
    rw [List.foldl_cons]
    by_cases h : a ∈ acc
    · have hc : acc.contains a = true := by simpa using h
      rw [if_pos hc]
      exact ih acc
    · have hc : ¬ acc.contains a = true := by simpa using h
      rw [if_neg hc]
      obtain ⟨t, ht, hmem⟩ := ih (acc ++ [a])
      refine ⟨a :: t, ?_, ?_⟩
      · rw [ht]; simp
      · intro k hk
        rcases List.mem_cons.mp hk with rfl | hk2
        · exact h
        · intro hka
          exact hmem k hk2 (List.mem_append_left _ hka)

theorem mergeGlobalFields_extends (g p : PresenceMap) :
    ∃ t, mergeGlobalFields g p = g ++ t ∧ ∀ k ∈ t, k ∉ g := by
  unfold mergeGlobalFields
  by_cases h : (p.filter (fun f => ¬ g.contains f)).length > 0
  · rw [if_pos h]
    exact spread_append p g
  · rw [if_neg h]
    exact ⟨[], by simp, by simp⟩

theorem processPresence_extends (g : PresenceMap) (pm : Option PresenceMap) :
    ∃ t, processPresence g pm = g ++ t ∧ ∀ k ∈ t, k ∉ g := by
  cases pm with
  | none => exact ⟨[], by simp [processPresence], by simp⟩
  | some p => simpa [processPresence] using mergeGlobalFields_extends g p

/-- The first character of an escaped cell is always a double quote. -/
theorem escapeCell_head (s : String) : (escapeCell s).data.head? = some '\"' := by
  unfold escapeCell
  cases jsReplaceAllChar s '\"' "\"\"" with
  | mk d => rfl

/-- Looking up a key of a keyed map built over a header list yields the
tabulated value. -/
theorem lookup_tabulate (f : String → JsValue) (hs : List String) (h : String) (hh : h ∈ hs) :
    List.lookup h (hs.map (fun k => (k, f k))) = some (f h) := by
  induction hs with
  | nil => cases hh
  | cons a hs ih =>
    by_cases he : h = a
    · subst he
      simp [List.lookup]
    · have hh2 : h ∈ hs := by
        rcases List.mem_cons.mp hh with h1 | h1
        · exact absurd h1 he
        · exact h1
      have hba : (h == a) = false := beq_eq_false_iff_ne.mpr he
      simpa [List.lookup, hba] using ih hh2

/-- `x || ''` is idempotent: backfilling an already-backfilled value
changes nothing. -/
theorem jsOrEmpty_idem (o : Option JsValue) :
    jsOrEmpty (some (jsOrEmpty o)) = jsOrEmpty o := by
  cases o with
  | none => rfl
  | some v =>
    by_cases h : v.truthy
    · simp [jsOrEmpty, h]
    · have hs : (JsValue.str "").truthy = false := rfl
      simp [jsOrEmpty, h, hs]

/-! ## Claim theorems -/

/-- C1: schema accumulation is monotone and order-stable — for every
starting global schema and every sequence of per-page presence results
merged by the `scrapeYellowpages` loop, the resulting schema is the old
schema followed by fresh fields only: every previously-present field
survives in its old position, and new fields are appended after all
existing ones. -/
theorem schema_merge_monotone_ordered (g : PresenceMap) (pms : List (Option PresenceMap)) :
    ∃ t, pms.foldl processPresence g = g ++ t ∧ ∀ k ∈ t, k ∉ g := by
  induction pms generalizing g with
  | nil => exact ⟨[], by simp, by simp⟩
  | cons pm pms ih =>
    rw [List.foldl_cons]
    obtain ⟨t1, ht1, hm1⟩ := processPresence_extends g pm
    obtain ⟨t2, ht2, hm2⟩ := ih (processPresence g pm)
    refine ⟨t1 ++ t2, ?_, ?_⟩
    · rw [ht2, ht1, List.append_assoc]
    · intro k hk
      rcases List.mem_append.mp hk with hk1 | hk1
      · exact hm1 k hk1
      · intro hkg
        exact hm2 k hk1 (by rw [ht1]; exact List.mem_append_left _ hkg)

/-- Witness for C1 at a concrete schema and presence sequence. -/
theorem schema_merge_monotone_ordered_witness :
    ∃ t, List.foldl processPresence ["businessName"]
        [some ["businessName", "phone"], none, some ["address"]] = ["businessName"] ++ t ∧
      ∀ k ∈ t, k ∉ (["businessName"] : List String) :=
  schema_merge_monotone_ordered ["businessName"]
    [some ["businessName", "phone"], none, some ["address"]]

/-- C2: table rectangularity — every row of `convertToCSV`'s output,
the header row included, has exactly as many cells as the serializer's
header list (the union of all record keys). -/
theorem csv_rows_rectangular (data : List JsRecord) (row : List String)
    (hrow : row ∈ convertToCSVRows data) :
    row.length = (allKeys data).length := by
  simp only [convertToCSVRows] at hrow
  rcases List.mem_cons.mp hrow with rfl | h
  · rfl
  · obtain ⟨item, _, rfl⟩ := List.mem_map.mp h
    simp [csvRow]

/-- Witness for C2 at a concrete record store. -/
theorem csv_rows_rectangular_witness :
    (["a", "b", "c"] : List String) ∈
        convertToCSVRows [[("a", .str "x"), ("b", .null)], [("c", .bool true)]] ∧
      (["a", "b", "c"] : List String).length =
        (allKeys [[("a", .str "x"), ("b", .null)], [("c", .bool true)]]).length :=
  ⟨by decide, csv_rows_rectangular _ _ (by decide)⟩

/-- Counterexample for C5 as stated: on the store
`[{a: "x"}]` the header row's cell is the bare `a`, which is not the
quote-wrapping of any string — the header row is emitted unquoted
(`headers.join(',')`), so not every cell of every row is quote-wrapped. -/
theorem header_cells_not_quoted_cex :
    ¬ (∀ row ∈ convertToCSVRows [[("a", JsValue.str "x")]],
        ∀ cell ∈ row, ∃ s, cell = escapeCell s) := by
  intro h
  obtain ⟨s, hs⟩ := h ["a"] (by decide) "a" (by decide)
  have h2 := escapeCell_head s
  rw [← hs] at h2
  exact absurd h2 (by decide)

/-- C5 (amended): every cell of every *data* row is unconditionally
quote-wrapped with internal quotes doubled (it is `escapeCell` of some
string, whatever the value), while the header row is the raw header
names, unquoted. -/
theorem data_cells_unconditionally_quoted (data : List JsRecord) :
    (convertToCSVRows data).head? = some (allKeys data) ∧
      ∀ row ∈ (convertToCSVRows data).tail, ∀ cell ∈ row, ∃ s, cell = escapeCell s := by
  constructor
  · rfl
  · intro row hrow cell hcell
    simp only [convertToCSVRows, List.tail_cons] at hrow
    obtain ⟨item, _, rfl⟩ := List.mem_map.mp hrow
    obtain ⟨h, _, rfl⟩ := List.mem_map.mp hcell
    exact ⟨_, rfl⟩

/-- Witness for C5 (amended) at a concrete store. -/
theorem data_cells_unconditionally_quoted_witness :
    (convertToCSVRows [[("a", JsValue.str "x,y")]]).head? =
        some (allKeys [[("a", JsValue.str "x,y")]]) ∧
      ∀ row ∈ (convertToCSVRows [[("a", JsValue.str "x,y")]]).tail,
        ∀ cell ∈ row, ∃ s, cell = escapeCell s :=
  data_cells_unconditionally_quoted [[("a", JsValue.str "x,y")]]

/-- Counterexample for C6 as stated: the record `{verified: false}`
*contains* the key `verified`, yet its cell serializes as the quoted
empty string `""` rather than the quoted rendering `"false"` of the
stored value — `item[header] || ''` blanks every falsy stored value. -/
theorem falsy_value_rendered_empty_cex :
    convertToCSVRows [[("verified", JsValue.bool false)]] = [["verified"], ["\"\""]] ∧
      escapeCell (JsValue.bool false).render ≠ "\"\"" := by
  constructor
  · decide
  · decide

/-- The spec-side cell description for the amended C6: the record's value
rendered as a string when the key is present with a truthy value, the
empty string when the key is absent or its value is falsy
(`null`, `false`, `0`, `''`). -/
def specCellValue (item : JsRecord) (h : String) : String :=
  match recGet item h with
  | some v => if v.truthy then v.render else ""
  | none => ""

/-- C6 (amended): the data row serialized for record `i` is exactly the
header list mapped through quote-escaping of `specCellValue`: the stored
value's string rendering when present and truthy, the empty string when
the key is absent — and also when the stored value is falsy. -/
theorem cell_backfill_truthy_or_empty (data : List JsRecord) (i : Nat) (item : JsRecord)
    (hi : data[i]? = some item) :
    (convertToCSVRows data)[i + 1]? =
      some ((allKeys data).map (fun h => escapeCell (specCellValue item h))) := by
  have hrow : (convertToCSVRows data)[i + 1]? =
      some (csvRow (allKeys data) (normalizeItem (allKeys data) item)) := by
    simp [convertToCSVRows, hi]
  rw [hrow]
  refine congrArg some ?_
  unfold csvRow
  refine List.map_congr_left ?_
  intro h hh
  have hlook : recGet (normalizeItem (allKeys data) item) h =
      some (jsOrEmpty (recGet item h)) := by
    simpa [recGet, normalizeItem] using
      lookup_tabulate (fun k => jsOrEmpty (recGet item k)) (allKeys data) h hh
  rw [hlook, jsOrEmpty_idem]
  refine congrArg escapeCell ?_
  cases ho : recGet item h with
  | none =>
    have hr : (JsValue.str "").render = "" := rfl
    simp [specCellValue, ho, jsOrEmpty, hr]
  | some v =>
    by_cases ht : v.truthy
    · simp [specCellValue, ho, jsOrEmpty, ht]
    · have hr : (JsValue.str "").render = "" := rfl
      simp [specCellValue, ho, jsOrEmpty, ht, hr]

/-- Witness for C6 (amended) at a concrete record with a falsy and a
truthy stored value. -/
theorem cell_backfill_truthy_or_empty_witness :
    (convertToCSVRows [[("verified", JsValue.bool false), ("name", JsValue.str "Joe")]])[0 + 1]? =
      some ((allKeys [[("verified", JsValue.bool false), ("name", JsValue.str "Joe")]]).map
        (fun h => escapeCell
          (specCellValue [("verified", JsValue.bool false), ("name", JsValue.str "Joe")] h))) :=
  cell_backfill_truthy_or_empty _ 0 _ (by decide)

/-- C9: idempotent serialization — `convertToCSV` is a pure function of
its input, so repeated calls on the same record store produce
byte-identical output (the embedding is deterministic by construction,
mirroring the deterministic `Set`/object iteration order of the JS
code). -/
theorem serialize_deterministic (data : List JsRecord) :
    convertToCSV data = convertToCSV data := rfl

/-- C10: empty-store serialization — the serializer returns the empty
string for an empty record list (`if (data.length === 0) return ''`), so
no header row is emitted even when fields are already known. -/
theorem empty_store_serializes_empty : convertToCSV [] = "" := rfl

/-- C8: graceful container miss — field detection and extraction resolve
the primary container through the same five-selector fallback chain, so
they agree on whether it exists; when it resolves on neither, `detect`
returns the null presence result and `extract` returns null (no
exception is modelled anywhere: both are total functions). -/
theorem container_miss_graceful (page : Dom) (fields : PresenceMap) :
    resolveContainerDetect page = resolveContainerExtract page ∧
      (resolveContainerDetect page = none →
        analyzeAvailableFields page = none ∧ extractBusinessData page fields = none) := by
  refine ⟨rfl, fun h => ⟨?_, ?_⟩⟩
  · unfold analyzeAvailableFields
    rw [h]
  · unfold extractBusinessData
    rw [show resolveContainerExtract page = none from h]

/-- Witness for C8 at a page with no matching container selector. -/
theorem container_miss_graceful_witness :
    resolveContainerDetect Dom.empty = resolveContainerExtract Dom.empty ∧
      (resolveContainerDetect Dom.empty = none →
        analyzeAvailableFields Dom.empty = none ∧
          extractBusinessData Dom.empty ["businessName"] = none) :=
  container_miss_graceful Dom.empty ["businessName"]

/-- A page with a recognized `main` container that has no `h1` (and
nothing else): the `businessName` selector misses. -/
def pageNoH1 : Dom := .mk "" "" "" "" [] [("main", Dom.empty)] [] false

/-- Counterexample for C3 as stated: on a page whose container lacks an
`h1`, with `businessName` in the global schema, the returned record
*does* contain the key `businessName` — bound to an explicit `null`
(`data.businessName = safeText(…)` assigns unconditionally) — rather
than omitting it. -/
theorem missing_field_bound_to_null_cex :
    extractBusinessData pageNoH1 ["businessName"] =
      some [("businessName", JsValue.null)] := by decide

/-- C3 (amended): for a schema field whose scalar extraction rule finds
no element on the page, the record still contains the field's key, bound
to the explicit `null` value (omission happens only for group columns
and the synthesized section fields); shown for `businessName` on any
page whose resolved container has no `h1`. -/
theorem missing_scalar_field_assigned_null (page : Dom) (c : Dom)
    (hres : resolveContainerExtract page = some c) (hh1 : c.qsel "h1" = none) :
    extractBusinessData page ["businessName"] =
      some [("businessName", JsValue.null)] := by
  unfold extractBusinessData
  rw [hres]
  simp [hh1, fieldOn, recSet, safeText, vOptStr, jsEndsWith]

/-- Witness for C3 (amended) at the concrete no-`h1` page. -/
theorem missing_scalar_field_assigned_null_witness :
    extractBusinessData pageNoH1 ["businessName"] =
      some [("businessName", JsValue.null)] :=
  missing_scalar_field_assigned_null pageNoH1 Dom.empty rfl rfl

/-- The scalar-text transform: trimmed inner text, empty becoming
`null` (what `safeText` yields on a present element). -/
def trimOrNull (s : String) : Option String :=
  if jsTrim s = "" then none else some (jsTrim s)

/-- An element whose only content is its inner text. -/
def textEl (t : String) : Dom := .mk "" "" t "" [] [] [] false

/-- A gallery item whose `data-media` attribute holds the given string
(malformed JSON models the throwing photo transform). -/
def photoItem (dm : String) : Dom := .mk "" "" "" "" [("data-media", dm)] [] [] false

/-- Test container for C4: nine scalar fields present with the given
texts, plus the given photo gallery items. -/
def faultContainer (t1 t2 t3 t4 t5 t6 t7 t8 t9 : String) (ps : List Dom) : Dom :=
  .mk "" "" "" "" []
    [("h1", textEl t1), (".business-name", textEl t2), (".business-title", textEl t3),
     (".company-name", textEl t4), (".contact-info", textEl t5),
     (".business-categories", textEl t6), (".service-categories", textEl t7),
     (".google-rating", textEl t8), (".facebook-rating", textEl t9)]
    [(".media-thumbnail.collage-pic, .gallery img, .photos img, .business-photos img, .image-gallery img",
      ps)]
    false

/-- Test page for C4 wrapping `faultContainer` in a `main` element. -/
def faultPage (t1 t2 t3 t4 t5 t6 t7 t8 t9 : String) (ps : List Dom) : Dom :=
  .mk "" "" "" "" [] [("main", faultContainer t1 t2 t3 t4 t5 t6 t7 t8 t9 ps)] [] false

/-- The ten fields on in the global schema for the C4 scenario. -/
def faultFields : PresenceMap :=
  ["businessName", "businessNameAlt", "businessTitle", "companyName", "contactInfo",
   "businessCategories", "serviceCategories", "googleRating", "facebookRating", "photos"]

/-- The record extracted from `faultPage` as a function of the photo
URLs the gallery yields: the nine scalar fields, the materialized photo
columns, and the photo total. -/
def expectedFaultRec (t1 t2 t3 t4 t5 t6 t7 t8 t9 : String) (photos : List String) : JsRecord :=
  recSet
    (setIndexedCols "photo" 20 photos
      [("businessName", vOptStr (trimOrNull t1)),
       ("businessNameAlt", vOptStr (trimOrNull t2)),
       ("businessTitle", vOptStr (trimOrNull t3)),
       ("companyName", vOptStr (trimOrNull t4)),
       ("contactInfo", vOptStr (trimOrNull t5)),
       ("businessCategories", vOptStr (trimOrNull t6)),
       ("serviceCategories", vOptStr (trimOrNull t7)),
       ("googleRating", vOptStr (trimOrNull t8)),
       ("facebookRating", vOptStr (trimOrNull t9))])
    "totalPhotos" (.num photos.length)

set_option maxHeartbeats 4000000 in
/-- On the C4 fixture, extraction computes exactly `expectedFaultRec`
over whatever the gallery fold collects. -/
theorem extract_faultPage_eq (t1 t2 t3 t4 t5 t6 t7 t8 t9 : String) (ps : List Dom) :
    extractBusinessData (faultPage t1 t2 t3 t4 t5 t6 t7 t8 t9 ps) faultFields =
      some (expectedFaultRec t1 t2 t3 t4 t5 t6 t7 t8 t9 (collectPhotos ps)) := rfl

/-- C4: per-field fault isolation — on a page where the photo field's
transform throws (`JSON.parse` fails on the `data-media` attribute) and
nine scalar fields succeed, extraction still returns a record containing
every successful field (with its scalar-text value) and omits only the
failing photo column; the caught exception does not abort the remaining
fields (`totalPhotos` is still written, counting zero collected
photos). -/
theorem single_field_throw_isolated
    (t1 t2 t3 t4 t5 t6 t7 t8 t9 bad : String)
    (hbad : bad ≠ "")
    (hparse : parseFlatJson bad = Except.error "SyntaxError") :
    extractBusinessData (faultPage t1 t2 t3 t4 t5 t6 t7 t8 t9 [photoItem bad]) faultFields =
      some [("businessName", vOptStr (trimOrNull t1)),
            ("businessNameAlt", vOptStr (trimOrNull t2)),
            ("businessTitle", vOptStr (trimOrNull t3)),
            ("companyName", vOptStr (trimOrNull t4)),
            ("contactInfo", vOptStr (trimOrNull t5)),
            ("businessCategories", vOptStr (trimOrNull t6)),
            ("serviceCategories", vOptStr (trimOrNull t7)),
            ("googleRating", vOptStr (trimOrNull t8)),
            ("facebookRating", vOptStr (trimOrNull t9)),
            ("totalPhotos", JsValue.num 0)] := by
  have hcp : collectPhotos [photoItem bad] = [] := by
    simp [collectPhotos, photoUrlOfItem, photoItem, Dom.attr, List.lookup, hbad, hparse]
  have hL := extract_faultPage_eq t1 t2 t3 t4 t5 t6 t7 t8 t9 [photoItem bad]
  rw [hcp] at hL
  rw [hL]
  rfl

/-- Witness for C4 at concrete texts and a concrete malformed JSON
payload. -/
theorem single_field_throw_isolated_witness :
    ("oops" ≠ "" ∧ parseFlatJson "oops" = Except.error "SyntaxError") ∧
      extractBusinessData (faultPage "Joe" "J" "T" "C" "I" "B" "S" "G" "F" [photoItem "oops"])
          faultFields =
        some [("businessName", vOptStr (trimOrNull "Joe")),
              ("businessNameAlt", vOptStr (trimOrNull "J")),
              ("businessTitle", vOptStr (trimOrNull "T")),
              ("companyName", vOptStr (trimOrNull "C")),
              ("contactInfo", vOptStr (trimOrNull "I")),
              ("businessCategories", vOptStr (trimOrNull "B")),
              ("serviceCategories", vOptStr (trimOrNull "S")),
              ("googleRating", vOptStr (trimOrNull "G")),
              ("facebookRating", vOptStr (trimOrNull "F")),
              ("totalPhotos", JsValue.num 0)] :=
  ⟨⟨by decide, rfl⟩,
    single_field_throw_isolated "Joe" "J" "T" "C" "I" "B" "S" "G" "F" "oops"
      (by decide) rfl⟩

/-- The kinds of per-review columns, in assignment order. -/
def reviewAttrNames : List String :=
  ["author", "rating", "date", "text", "title", "helpful", "response",
   "verified", "platform", "location", "avatar"]

/-- The exact key list of a record extracted from a page with more than
ten review elements and only `reviews` in the schema: the eleven
attribute columns for reviews 1–10 (and for no later index), followed by
`totalReviews`. -/
def reviewColsKeys : List String :=
  ((List.range 10).flatMap (fun i =>
    reviewAttrNames.map (fun a => "review" ++ Nat.repr (i + 1) ++ "_" ++ a))) ++ ["totalReviews"]

/-- The effect of one `recSet` on the key list alone. -/
def keysSet (ks : List String) (k : String) : List String :=
  if ks.contains k then ks else ks ++ [k]

/-- The effect of `assignReviewCols` for index `i` on the key list
alone: the eleven column keys in assignment order. -/
def reviewKeyStep (ks : List String) (i : Nat) : List String :=
  let n := Nat.repr (i + 1)
  keysSet (keysSet (keysSet (keysSet (keysSet (keysSet (keysSet (keysSet (keysSet (keysSet (keysSet ks
    ("review" ++ n ++ "_author")) ("review" ++ n ++ "_rating")) ("review" ++ n ++ "_date"))
    ("review" ++ n ++ "_text")) ("review" ++ n ++ "_title")) ("review" ++ n ++ "_helpful"))
    ("review" ++ n ++ "_response")) ("review" ++ n ++ "_verified")) ("review" ++ n ++ "_platform"))
    ("review" ++ n ++ "_location")) ("review" ++ n ++ "_avatar")

/-- The key list of the review materialization fold, as a function of
the starting index and the number of reviews only (the review contents
never influence the keys). -/
def reviewKeysFoldIdx : Nat → Nat → List String → List String
  | _, 0, ks => ks
  | n, len + 1, ks => reviewKeysFoldIdx (n + 1) len (if n < 10 then reviewKeyStep ks n else ks)

/-- The review materialization fold (lines 543–557) together with the
`totalReviews` assignment (line 560), as a function of the collected
per-review data. -/
def reviewRecOf (reviews : List ReviewData) : JsRecord :=
  recSet
    (reviews.enum.foldl (fun d p => if p.1 < 10 then assignReviewCols d p.1 p.2 else d) [])
    "totalReviews" (.num reviews.length)

set_option maxHeartbeats 4000000 in
/-- With only `reviews` on in the schema, extraction on any page with a
resolved container computes exactly `reviewRecOf` of the mapped review
elements. -/
theorem extract_reviews_only (page c : Dom)
    (hres : resolveContainerExtract page = some c) :
    extractBusinessData page ["reviews"] =
      some (reviewRecOf
        ((c.qselAll ".review, .testimonial, #reviews article, #ta-reviews-container article").map
          reviewDataOf)) := by
  unfold extractBusinessData
  rw [hres]
  rfl

/-- `recKeys` membership agrees with a key scan over the record's
pairs. -/
theorem keys_contains_eq_any (d : JsRecord) (k : String) :
    (recKeys d).contains k = d.any (fun p => p.1 == k) := by
  induction d with
  | nil => rfl
  | cons p d ih =>
    simp only [recKeys, List.map_cons, List.contains_cons, List.any_cons]
    rw [show (List.map Prod.fst d).contains k = (recKeys d).contains k from rfl, ih]
    congr 1
    cases hbe : (k == p.1)
    · exact (beq_eq_false_iff_ne.mpr (Ne.symm (beq_eq_false_iff_ne.mp hbe))).symm
    · exact (beq_iff_eq.mpr (beq_iff_eq.mp hbe).symm).symm

/-- `recSet` acts on the key list as `keysSet` — the stored value never
influences the keys. -/
theorem recKeys_recSet (d : JsRecord) (k : String) (v : JsValue) :
    recKeys (recSet d k v) = keysSet (recKeys d) k := by
  unfold recSet keysSet
  by_cases h : d.any (fun p => p.1 == k) = true
  · rw [if_pos h, if_pos (by rw [keys_contains_eq_any]; exact h)]
    unfold recKeys
    rw [List.map_map]
    refine List.map_congr_left ?_
    intro p hp
    by_cases hb : (p.1 == k) = true
    · simp only [Function.comp_apply, if_pos hb]
      exact (beq_iff_eq.mp hb).symm
    · simp only [Function.comp_apply, if_neg hb]
  · rw [if_neg h, if_neg (by rw [keys_contains_eq_any]; exact h)]
    unfold recKeys
    simp

/-- `assignReviewCols` acts on the key list as `reviewKeyStep`. -/
theorem recKeys_assignReviewCols (d : JsRecord) (i : Nat) (r : ReviewData) :
    recKeys (assignReviewCols d i r) = reviewKeyStep (recKeys d) i := by
  simp only [assignReviewCols, recKeys_recSet]
  rfl

/-- The review materialization fold acts on the key list as
`reviewKeysFoldIdx` of the review count. -/
theorem recKeys_reviewFold_idx (l : List ReviewData) :
    ∀ (n : Nat) (d : JsRecord),
      recKeys ((List.enumFrom n l).foldl
        (fun d p => if p.1 < 10 then assignReviewCols d p.1 p.2 else d) d) =
      reviewKeysFoldIdx n l.length (recKeys d) := by
  induction l with
  | nil => intro n d; rfl
  | cons a l ih =>
    intro n d
    simp only [List.enumFrom, List.foldl_cons, List.length_cons]
    have hstep : reviewKeysFoldIdx n (l.length + 1) (recKeys d) =
        reviewKeysFoldIdx (n + 1) l.length
          (if n < 10 then reviewKeyStep (recKeys d) n else recKeys d) := rfl
    by_cases h : n < 10
    · rw [if_pos h, ih (n + 1) (assignReviewCols d n a), hstep, if_pos h,
        recKeys_assignReviewCols]
    · rw [if_neg h, ih (n + 1) d, hstep, if_neg h]

/-- Beyond the cap, the key-level fold is the identity. -/
theorem reviewKeysFoldIdx_stop (len : Nat) :
    ∀ (n : Nat) (ks : List String), 10 ≤ n → reviewKeysFoldIdx n len ks = ks := by
  induction len with
  | zero => intro n ks _; rfl
  | succ len ih =>
    intro n ks hn
    show reviewKeysFoldIdx (n + 1) len (if n < 10 then reviewKeyStep ks n else ks) = ks
    rw [if_neg (by omega)]
    exact ih (n + 1) ks (by omega)

/-- With at least eleven reviews, extra reviews add no keys. -/
theorem reviewKeysFoldIdx_11 (m : Nat) (ks : List String) :
    reviewKeysFoldIdx 0 (m + 11) ks = reviewKeysFoldIdx 0 11 ks := by
  have h : reviewKeysFoldIdx 0 (m + 11) ks =
      reviewKeysFoldIdx 11 m (reviewKeysFoldIdx 0 11 ks) := rfl
  rw [h, reviewKeysFoldIdx_stop m 11 _ (by norm_num)]

set_option maxRecDepth 100000 in
/-- The key list of the review record is fixed once at least eleven
reviews are present: columns for indices 1–10 only, plus
`totalReviews`. -/
theorem reviewRecOf_keys (d1 d2 d3 d4 d5 d6 d7 d8 d9 d10 d11 : ReviewData)
    (tl : List ReviewData) :
    recKeys (reviewRecOf (d1::d2::d3::d4::d5::d6::d7::d8::d9::d10::d11::tl)) =
      reviewColsKeys := by
  unfold reviewRecOf
  rw [recKeys_recSet]
  rw [show (d1::d2::d3::d4::d5::d6::d7::d8::d9::d10::d11::tl).enum =
      List.enumFrom 0 (d1::d2::d3::d4::d5::d6::d7::d8::d9::d10::d11::tl) from rfl]
  rw [recKeys_reviewFold_idx]
  rw [show (d1::d2::d3::d4::d5::d6::d7::d8::d9::d10::d11::tl).length = tl.length + 11 from rfl]
  rw [reviewKeysFoldIdx_11]
  decide

/-- Looking up a key absent from the front part finds the appended
binding. -/
theorem lookup_append_self (k : String) (v : JsValue) :
    ∀ d : JsRecord, (∀ p ∈ d, (p.1 == k) = false) →
      List.lookup k (d ++ [(k, v)]) = some v := by
  intro d
  induction d with
  | nil => intro _; simp [List.lookup]
  | cons p d ih =>
    intro hall
    have hp := hall p (List.mem_cons_self p d)
    have hk : (k == p.1) = false :=
      beq_eq_false_iff_ne.mpr (Ne.symm (beq_eq_false_iff_ne.mp hp))
    cases p with
    | mk a b =>
      simp only [List.cons_append, List.lookup, hk]
      exact ih (fun q hq => hall q (List.mem_cons_of_mem _ hq))

/-- Looking up the overwritten key after an in-place update finds the
new value. -/
theorem lookup_map_set (k : String) (v : JsValue) :
    ∀ d : JsRecord, d.any (fun p => p.1 == k) = true →
      List.lookup k (d.map (fun p => if p.1 == k then (k, v) else p)) = some v := by
  intro d
  induction d with
  | nil => intro h; simp at h
  | cons p d ih =>
    intro h
    cases p with
    | mk a b =>
      by_cases hp : (a == k) = true
      · simp only [List.map_cons]
        rw [if_pos hp]
        simp [List.lookup]
      · have hp' : (a == k) = false := by simpa using hp
        have hd : d.any (fun q => q.1 == k) = true := by simpa [hp'] using h
        have hk : (k == a) = false :=
          beq_eq_false_iff_ne.mpr (Ne.symm (beq_eq_false_iff_ne.mp hp'))
        simp only [List.map_cons]
        rw [if_neg (by simpa using hp')]
        simp only [List.lookup, hk]
        exact ih hd

/-- Reading back the key just written by `recSet` yields the written
value. -/
theorem recGet_recSet_self (d : JsRecord) (k : String) (v : JsValue) :
    recGet (recSet d k v) k = some v := by
  unfold recGet recSet
  by_cases h : d.any (fun p => p.1 == k) = true
  · rw [if_pos h]
    exact lookup_map_set k v d h
  · rw [if_neg h]
    have hall : ∀ p ∈ d, (p.1 == k) = false := by
      intro p hp
      by_contra hc
      have hc' : (p.1 == k) = true := by simpa using hc
      exact h (List.any_eq_true.mpr ⟨p, hp, hc'⟩)
    exact lookup_append_self k v d hall

/-- C7: capped-group counting — on any page whose container yields more
than ten review elements (eleven plus a remainder), with `reviews` the
discovered schema, the extracted record's keys are exactly the
`review1_…` … `review10_…` column groups plus `totalReviews` (no
column group for any index beyond 10), and `totalReviews` holds the
true element count, not the capped count. -/
theorem review_columns_capped_total_uncapped (page c : Dom)
    (r1 r2 r3 r4 r5 r6 r7 r8 r9 r10 r11 : Dom) (rest : List Dom)
    (hres : resolveContainerExtract page = some c)
    (hqa : c.qselAll ".review, .testimonial, #reviews article, #ta-reviews-container article" =
      r1::r2::r3::r4::r5::r6::r7::r8::r9::r10::r11::rest) :
    ∃ rec, extractBusinessData page ["reviews"] = some rec ∧
      recKeys rec = reviewColsKeys ∧
      recGet rec "totalReviews" = some (.num (rest.length + 11)) := by
  have hE := extract_reviews_only page c hres
  rw [hqa] at hE
  refine ⟨_, hE, ?_, ?_⟩
  · simpa using reviewRecOf_keys (reviewDataOf r1) (reviewDataOf r2) (reviewDataOf r3)
      (reviewDataOf r4) (reviewDataOf r5) (reviewDataOf r6) (reviewDataOf r7)
      (reviewDataOf r8) (reviewDataOf r9) (reviewDataOf r10) (reviewDataOf r11)
      (rest.map reviewDataOf)
  · unfold reviewRecOf
    rw [recGet_recSet_self]
    simp

/-- A container whose review selector yields fifteen (empty) review
elements. -/
def reviewContainer15 : Dom :=
  .mk "" "" "" "" [] []
    [(".review, .testimonial, #reviews article, #ta-reviews-container article",
      List.replicate 15 Dom.empty)] false

/-- A page holding `reviewContainer15` as its `main` element. -/
def reviewPage15 : Dom := .mk "" "" "" "" [] [("main", reviewContainer15)] [] false

/-- Witness for C7 on the fifteen-review page: ten column groups, but a
total of 15. -/
theorem review_columns_capped_total_uncapped_witness :
    ∃ rec, extractBusinessData reviewPage15 ["reviews"] = some rec ∧
      recKeys rec = reviewColsKeys ∧
      recGet rec "totalReviews" =
        some (.num ((List.replicate 4 Dom.empty).length + 11)) :=
  review_columns_capped_total_uncapped reviewPage15 reviewContainer15
    Dom.empty Dom.empty Dom.empty Dom.empty Dom.empty Dom.empty Dom.empty Dom.empty
    Dom.empty Dom.empty Dom.empty (List.replicate 4 Dom.empty) rfl rfl

end YPScraper
